import Mathlib

/-!
Verification of the mamalluca status-synchronization engine.

This development shallowly embeds the Rust sources (`src/moonraker/handler.rs`,
`src/moonraker/client.rs`, `src/main.rs`): JSON values (`serde_json::Value`)
become an inductive `Json` with objects as association lists, the
`StatusData` subsystem-key enum and its `TryFrom<&str>` / `From<StatusData>
for String` conversions become Lean functions, the `json_patch::merge`
(RFC 7396 merge-patch) routine is embedded field-by-field, and the update
handler's and websocket client's event processing become explicit state
passing over handler/client state records.
-/

namespace Mamalluca

/-- `serde_json::Value`: JSON values. Numbers are modelled as rationals
(the synchronization engine only moves numbers around, never computes with
them), objects as association lists of fields (at most one binding per key
in any value produced by serde). -/
inductive Json where
  | null : Json
  | bool (b : Bool) : Json
  | num (q : ℚ) : Json
  | str (s : String) : Json
  | arr (elems : List Json) : Json
  | obj (fields : List (String × Json)) : Json
  deriving Repr

/-- `serde_json::Value::is_null`. -/
def Json.isNull : Json → Bool
  | .null => true
  | _ => false

/-- `serde_json::Value::is_array`. -/
def Json.isArray : Json → Bool
  | .arr _ => true
  | _ => false

section KeyedList

variable {κ : Type} [DecidableEq κ]

/-- Map lookup on an association list: the first binding of key `k`
(serde maps and `DashMap` hold at most one binding per key). -/
def lookupKey (k : κ) : List (κ × Json) → Option Json
  | [] => none
  | (k2, v) :: rest => if k2 = k then some v else lookupKey k rest

/-- Map removal (`BTreeMap::remove` / `DashMap::remove`): drop the
binding(s) of key `k`. -/
def eraseKey (k : κ) : List (κ × Json) → List (κ × Json)
  | [] => []
  | (k2, v) :: rest =>
    if k2 = k then eraseKey k rest else (k2, v) :: eraseKey k rest

/-- Map insertion (`BTreeMap::insert` / `DashMap::insert`, or
`entry(k).or_insert(..)` followed by an in-place update of the slot):
replace the first binding of `k` in place, or add a fresh binding if the
key is absent. -/
def setKey (k : κ) (v : Json) : List (κ × Json) → List (κ × Json)
  | [] => [(k, v)]
  | (k2, w) :: rest =>
    if k2 = k then (k, v) :: rest else (k2, w) :: setKey k v rest

/-- The keys of an association list are pairwise distinct (true of every
map serde or `DashMap` produces). -/
def nodupKeys : List (κ × Json) → Bool
  | [] => true
  | (k, _) :: rest => (lookupKey k rest).isNone && nodupKeys rest

end KeyedList

mutual
/-- `json_patch::merge` (RFC 7396 merge-patch): a non-object patch replaces
the document wholesale (arrays included); an object patch turns a
non-object document into an empty object, then processes the patch fields
in order. -/
def mergePatch (doc patch : Json) : Json :=
  match patch with
  | .obj pf =>
    .obj (mergeFields (match doc with | .obj df => df | _ => []) pf)
  | p => p

/-- The field loop of `json_patch::merge`: for each patch field in order, a
`null` patch value removes the target field, any other value is merged
recursively into the target field (`map.entry(key).or_insert(Value::Null)`
creates it as `null` first when absent). -/
def mergeFields (acc : List (String × Json)) : List (String × Json) → List (String × Json)
  | [] => acc
  | (k, v) :: rest =>
    if v.isNull then mergeFields (eraseKey k acc) rest
    else mergeFields (setKey k (mergePatch ((lookupKey k acc).getD .null) v) acc) rest
end

mutual
/-- Well-formedness of a JSON value as serde produces it: every object has
pairwise-distinct keys, recursively. -/
def wfJson : Json → Bool
  | .obj fs => wfFields fs
  | .arr xs => wfElems xs
  | _ => true

/-- Well-formedness of an object's field list. -/
def wfFields : List (String × Json) → Bool
  | [] => true
  | (k, v) :: rest => (lookupKey k rest).isNone && wfJson v && wfFields rest

/-- Well-formedness of an array's element list. -/
def wfElems : List Json → Bool
  | [] => true
  | x :: xs => wfJson x && wfElems xs
end

/-- `serde_json::Value::get(field)`: field access on an object, `none` on
any other value. -/
def jsonGet (field : String) : Json → Option Json
  | .obj fs => lookupKey field fs
  | _ => none

/-- `serde_json::Number::as_u64`: the number, when it is an integer in
`[0, 2^64)`. -/
def jsonAsU64 : Json → Option ℕ
  | .num q => if q.den = 1 ∧ 0 ≤ q.num ∧ q.num < 2 ^ 64 then some q.num.toNat else none
  | _ => none

/-- `serde_json::Value::as_str`. -/
def jsonAsStr : Json → Option String
  | .str s => some s
  | _ => none

/-- `serde_json::Value::pointer` restricted to the already-split reference
tokens (the sources only use the literal pointers `/result/objects` and
`/result/status`, whose tokens contain no escapes): descend through
objects by key and through arrays by decimal index. -/
def jsonPointerSegs : List String → Json → Option Json
  | [], j => some j
  | seg :: rest, .obj fs => (lookupKey seg fs).bind (jsonPointerSegs rest)
  | seg :: rest, .arr xs => (seg.toNat?).bind fun i => (xs.get? i).bind (jsonPointerSegs rest)
  | _ :: _, _ => none

/-! ## Subsystem keys: the `StatusData` enum of `handler.rs` -/

/-- `handler.rs` `enum StatusData`: the canonical subsystem key, a kind tag
with the instance name where the kind is instantiable. -/
inductive StatusData where
  | ControllerFan (name : String)
  | ExcludeObject
  | Extruder (name : String)
  | Fan (name : String)
  | FanGeneric (name : String)
  | FilamentMotionSensor (name : String)
  | FilamentSwitchSensor (name : String)
  | GCodeMove
  | HeaterBed (name : String)
  | HeaterFan (name : String)
  | Mcu (name : String)
  | MoonrakerStatus
  | MotionReport
  | PauseResume
  | PrintStats
  | Probe
  | StepperEnable
  | TemperatureSensor (name : String)
  | TMC2130 (name : String)
  | TMC2208 (name : String)
  | TMC2209 (name : String)
  | TMC2240 (name : String)
  | TMC2660 (name : String)
  | TMC5160 (name : String)
  | Toolhead
  | VirtualSdCard
  | Webhooks
  | ZThermalAdjust
  | ZTilt
  deriving DecidableEq, Repr

/-- The Unicode `White_Space` property, as Rust's `char::is_whitespace`
tests it. -/
def rustIsWhitespace (c : Char) : Bool :=
  let n := c.toNat
  n == 0x09 || n == 0x0A || n == 0x0B || n == 0x0C || n == 0x0D || n == 0x20 ||
  n == 0x85 || n == 0xA0 || n == 0x1680 || (0x2000 ≤ n && n ≤ 0x200A) ||
  n == 0x2028 || n == 0x2029 || n == 0x202F || n == 0x205F || n == 0x3000

/-- Worker for `rustSplitWhitespace`: `acc` holds the current word's
characters in reverse. -/
def splitWsAux : List Char → List Char → List String
  | [], acc => if acc.isEmpty then [] else [String.mk acc.reverse]
  | c :: cs, acc =>
    if rustIsWhitespace c then
      if acc.isEmpty then splitWsAux cs [] else String.mk acc.reverse :: splitWsAux cs []
    else splitWsAux cs (c :: acc)

/-- Rust `str::split_whitespace`: the maximal whitespace-free words of the
string, in order. -/
def rustSplitWhitespace (s : String) : List String := splitWsAux s.data []

/-- The match of `TryFrom<&str> for StatusData` over the first topic word
and the optional second word. -/
def parseKind : String → Option String → Option StatusData
  | "mcu", none => some (.Mcu "mcu")
  | "mcu", some name => some (.Mcu name)
  | "webhooks", _ => some .Webhooks
  | "extruder", some name => some (.Extruder name)
  | "extruder", none => some (.Extruder "extruder")
  | "heater_bed", some name => some (.HeaterBed name)
  | "heater_bed", none => some (.HeaterBed "heater_bed")
  | "temperature_sensor", some name => some (.TemperatureSensor name)
  | "controller_fan", some name => some (.ControllerFan name)
  | "tmc2130", some name => some (.TMC2130 name)
  | "tmc2208", some name => some (.TMC2208 name)
  | "tmc2209", some name => some (.TMC2209 name)
  | "tmc2240", some name => some (.TMC2240 name)
  | "tmc2660", some name => some (.TMC2660 name)
  | "tmc5160", some name => some (.TMC5160 name)
  | "stepper_enable", _ => some .StepperEnable
  | "fan", _ => some (.Fan "fan")
  | "fan_generic", some name => some (.FanGeneric name)
  | "heater_fan", some name => some (.HeaterFan name)
  | "z_thermal_adjust", _ => some .ZThermalAdjust
  | "filament_motion_sensor", some name => some (.FilamentMotionSensor name)
  | "filament_switch_sensor", some name => some (.FilamentSwitchSensor name)
  | "pause_resume", _ => some .PauseResume
  | "probe", _ => some .Probe
  | "z_tilt", _ => some .ZTilt
  | "motion_report", _ => some .MotionReport
  | "exclude_object", _ => some .ExcludeObject
  | "toolhead", _ => some .Toolhead
  | "gcode_move", _ => some .GCodeMove
  | "print_stats", _ => some .PrintStats
  | "virtual_sdcard", _ => some .VirtualSdCard
  | _, _ => none

/-- `TryFrom<&str> for StatusData` (`handler.rs:62-112`): split the topic
on whitespace, take the first two words, and match kind and optional
instance name; `none` models `Err(UnknownStatusUpdate(..))`. -/
def statusDataTryFrom (value : String) : Option StatusData :=
  match (rustSplitWhitespace value).take 2 with
  | [] => none
  | [kind] => parseKind kind none
  | kind :: second :: _ => parseKind kind (some second)

/-- `From<StatusData> for String` (`handler.rs:114-190`): render the key
back to its wire-topic string. The `Extruder` branch reproduces the
source's format string byte-for-byte: `"extruderÃ {name}"`, with a
stray U+00C3 between the kind and the separating space. -/
def statusDataToString : StatusData → String
  | .Mcu name => if name = "mcu" then "mcu" else "mcu " ++ name
  | .Webhooks => "webhooks"
  | .MoonrakerStatus => "moonraker"
  | .Extruder name =>
    if name = "extruder" then "extruder" else "extruderÃ " ++ name
  | .HeaterBed name =>
    if name = "heater_bed" then "heater_bed" else "heater_bed " ++ name
  | .TemperatureSensor name => "temperature_sensor " ++ name
  | .ControllerFan name => "controller_fan " ++ name
  | .TMC2130 name => "tmc2130 " ++ name
  | .TMC2208 name => "tmc2208 " ++ name
  | .TMC2209 name => "tmc2209 " ++ name
  | .TMC2240 name => "tmc2240 " ++ name
  | .TMC2660 name => "tmc2660 " ++ name
  | .TMC5160 name => "tmc5160 " ++ name
  | .StepperEnable => "stepper_enable"
  | .Fan _ => "fan"
  | .FanGeneric name => "fan_generic " ++ name
  | .HeaterFan name => "heater_fan " ++ name
  | .ZThermalAdjust => "z_thermal_adjust"
  | .FilamentSwitchSensor name => "filament_switch_sensor " ++ name
  | .FilamentMotionSensor name => "filament_motion_sensor " ++ name
  | .PauseResume => "pause_resume"
  | .Probe => "probe"
  | .ZTilt => "z_tilt"
  | .MotionReport => "motion_report"
  | .ExcludeObject => "exclude_object"
  | .Toolhead => "toolhead"
  | .GCodeMove => "gcode_move"
  | .PrintStats => "print_stats"
  | .VirtualSdCard => "virtual_sdcard"

/-! ## The status cache and `process_status_update` -/

/-- The `current_status: DashMap<StatusData, serde_json::Value>` cache, as
an association list (its iteration order plays no role in the claims). -/
abbrev StatusCache := List (StatusData × Json)

/-- One cache merge of `process_status_update` (`handler.rs:405-406`):
`current_status.entry(kind).or_insert(json!({}))` then
`json_patch::merge(&mut entry, patch)` — so the key ends up bound to the
merge-patch of its previous value (an empty object when absent) with the
patch. -/
def statusMerge (cache : StatusCache) (kind : StatusData) (patch : Json) : StatusCache :=
  setKey kind (mergePatch ((lookupKey kind cache).getD (.obj [])) patch) cache

/-- The errors of `UpdateHandlerError` plus the `anyhow` errors raised by
the handler's helpers, as far as the modelled paths produce them. -/
inductive HandlerError where
  | channelDisconnected
  | unknownStatusUpdate (topic : String)
  | malformedStatusUpdate
  | initialStatusMissing
  | callFailed
  deriving DecidableEq, Repr

/-- The inner pair loop of `process_status_update` (`handler.rs:401-407`):
parse each topic with `try_into` and merge; the `?` on the parse aborts
the whole loop at the first unparsable topic, keeping the merges already
applied. -/
def processPairs (cache : StatusCache) : List (String × Json) → StatusCache × Option HandlerError
  | [] => (cache, none)
  | (key, patch) :: rest =>
    match statusDataTryFrom key with
    | none => (cache, some (.unknownStatusUpdate key))
    | some kind => processPairs (statusMerge cache kind patch) rest

/-- The outer update loop of `process_status_update` (`handler.rs:398-410`):
array elements that are not objects are skipped (`if let Some(update) =
update.as_object()`); an error from the pair loop propagates. -/
def processUpdates (cache : StatusCache) : List Json → StatusCache × Option HandlerError
  | [] => (cache, none)
  | u :: rest =>
    match u with
    | .obj fields =>
      match processPairs cache fields with
      | (c, none) => processUpdates c rest
      | (c, some e) => (c, some e)
    | _ => processUpdates cache rest

/-- `UpdateHandler::process_status_update` (`handler.rs:393-413`): a
non-array payload is rejected (`bail!`); otherwise the updates are
processed in order. The returned cache reflects the merges applied before
any error (in Rust the map is mutated in place, so an early `?` return
keeps them). -/
def processStatusUpdate (cache : StatusCache) (payload : Json) : StatusCache × Option HandlerError :=
  match payload with
  | .arr updates => processUpdates cache updates
  | _ => (cache, some .malformedStatusUpdate)

/-! ## The websocket client (`client.rs`) -/

/-- `enum MoonrakerStatusNotification`: the events the client sends to the
update handler over the mpsc channel. -/
inductive MoonrakerStatusNotification where
  | MoonrakerConnected
  | MoonrakerDisconnected
  | KlippyReady
  | KlippyShutdown
  | KlippyDisconnected
  | KlipperStatusData (payload : Json)
  | MoonrakerStatusData (payload : Json)
  deriving Repr

/-- `ezsockets::client::ClientCloseMode`. -/
inductive ClientCloseMode where
  | Reconnect
  | Close
  deriving DecidableEq, Repr

/-- The client's correlator state (`MoonrakerClientState`): the ids of the
pending calls (`requests: DashMap<u64, Sender<Value>>` — a pending oneshot
sender is identified by its call id) and the `next_id` counter. -/
structure ClientState where
  requests : List ℕ
  nextId : ℕ
  deriving DecidableEq, Repr

/-- The observable outcome of one inbound frame (`Client::on_text`): the
correlator state afterwards, the notifications sent to the update handler,
the responses delivered to pending oneshot slots (call id, value), and the
error returned to the inbound loop (`on_text` ends in `Ok(())`, so it is
always `none`). -/
structure TextOutcome where
  state : ClientState
  sentUpdates : List MoonrakerStatusNotification
  resolved : List (ℕ × Json)
  err : Option String

/-- `Client::process_call_response` (`client.rs:73-82`): read the frame's
`id` as a `u64`; when a pending entry with that id exists, remove it and
deliver the frame to its slot; otherwise (missing, non-integer or unknown
id) do nothing. -/
def processCallResponse (s : ClientState) (response : Json) : ClientState × List (ℕ × Json) :=
  match (jsonGet "id" response).bind jsonAsU64 with
  | some cid =>
    if cid ∈ s.requests then ({ s with requests := s.requests.erase cid }, [(cid, response)])
    else (s, [])
  | none => (s, [])

/-- `Client::process_notification` (`client.rs:84-120`): map the `method`
field to an update-handler notification, with `params` (an empty object
when absent) as payload; unknown or non-string methods send nothing. -/
def processNotification (response : Json) : List MoonrakerStatusNotification :=
  match jsonGet "method" response with
  | none => []
  | some m =>
    let payload := (jsonGet "params" response).getD (.obj [])
    match m with
    | .str "notify_proc_stat_update" => [.MoonrakerStatusData payload]
    | .str "notify_status_update" => [.KlipperStatusData payload]
    | .str "notify_klippy_ready" => [.KlippyReady]
    | .str "notify_klippy_shutdown" => [.KlippyShutdown]
    | .str "notify_klippy_disconnected" => [.KlippyDisconnected]
    | _ => []

/-- `Client::on_text` (`client.rs:127-137`) after JSON decoding (a frame
that fails to decode becomes `json!({})`, which carries no `method` and no
`id` and so falls through the response path untouched): a frame with a
`method` field is a notification, any other frame is a call response. The
function always returns `Ok(())`. -/
def onText (s : ClientState) (frame : Json) : TextOutcome :=
  if (jsonGet "method" frame).isNone then
    let (s2, res) := processCallResponse s frame
    ⟨s2, [], res, none⟩
  else
    ⟨s, processNotification frame, [], none⟩

/-- `Client::on_close` (`client.rs:191-200`): send the
`MoonrakerDisconnected` lifecycle event and reconnect. The correlator
state — in particular `requests` — is not touched. -/
def onClose (s : ClientState) : ClientState × List MoonrakerStatusNotification × ClientCloseMode :=
  (s, [.MoonrakerDisconnected], .Reconnect)

/-- `Client::on_disconnect` (`client.rs:209-219`): identical observable
behaviour to `on_close`. -/
def onDisconnect (s : ClientState) : ClientState × List MoonrakerStatusNotification × ClientCloseMode :=
  (s, [.MoonrakerDisconnected], .Reconnect)

/-! ## The update handler (`handler.rs`) -/

/-- The `UpdateHandler`'s mutable state: the `initialized` flag and the
status cache. -/
structure HandlerState where
  initialized : Bool
  currentStatus : StatusCache

/-- The responses the two bootstrap calls receive, abstracting the oneshot
channels of `get_object_list` and `subscribe`; `none` models a failed
`rx.await` (sender dropped) or a failed `connection.call`. -/
structure BootstrapEnv where
  objectListResponse : Option Json
  subscribeResponse : Option Json

/-- The filtering part of `UpdateHandler::get_object_list`
(`handler.rs:466-476`): read `/result/objects` as an array, keep its
strings, parse each with `try_into` and keep the successes
(`filter_map(Result::ok)`); anything missing yields the empty list
(`unwrap_or_default`). -/
def getObjectListFilter (response : Json) : List StatusData :=
  match jsonPointerSegs ["result", "objects"] response with
  | some (.arr xs) => (xs.filterMap jsonAsStr).filterMap statusDataTryFrom
  | _ => []

/-- `UpdateHandler::subscribe` (`handler.rs:439-459`) given the call's
response: read `/result/status`; on success clear the cache, merge the
initial snapshot (`process_status_update(&json!([updates]))`) and set
`initialized` on full success. Errors leave `initialized` unset and
propagate. -/
def subscribeStep (env : BootstrapEnv) (s : HandlerState) : HandlerState × Option HandlerError :=
  match env.subscribeResponse with
  | none => (s, some .callFailed)
  | some resp =>
    match jsonPointerSegs ["result", "status"] resp with
    | none => (s, some .initialStatusMissing)
    | some updates =>
      match processStatusUpdate [] (.arr [updates]) with
      | (c, none) => ({ initialized := true, currentStatus := c }, none)
      | (c, some e) => ({ s with currentStatus := c }, some e)

/-- `UpdateHandler::on_moonraker_connected` (`handler.rs:423-429`): run
`get_object_list`, then `subscribe` with the filtered objects (the object
list only shapes the outgoing request; the subscribe response comes from
the environment). -/
def onMoonrakerConnected (env : BootstrapEnv) (s : HandlerState) : HandlerState × Option HandlerError :=
  match env.objectListResponse with
  | none => (s, some .callFailed)
  | some _ => subscribeStep env s

/-- `UpdateHandler::on_moonraker_disconnected` (`handler.rs:431-437`):
reset `initialized` and clear the cache. -/
def onMoonrakerDisconnected (_s : HandlerState) : HandlerState :=
  { initialized := false, currentStatus := [] }

/-- One iteration of the consumer loop `UpdateHandler::process`
(`handler.rs:355-388`): dispatch the notification; an `Err` result is
logged and the loop continues with the state as mutated so far. -/
def handleNotification (env : BootstrapEnv) (s : HandlerState) :
    MoonrakerStatusNotification → HandlerState
  | .MoonrakerConnected => (onMoonrakerConnected env s).1
  | .MoonrakerDisconnected => onMoonrakerDisconnected s
  | .KlipperStatusData payload =>
    { s with currentStatus := (processStatusUpdate s.currentStatus payload).1 }
  | .MoonrakerStatusData payload =>
    { s with currentStatus := setKey .MoonrakerStatus payload s.currentStatus }
  | _ => s

/-- `UpdateHandler::process` (`handler.rs:352-391`): consume the channel's
notifications in order; when the channel closes (`recv()` returns `None`,
i.e. after the last delivered notification) the loop ends and the function
returns `Err(ChannelDisconnected)`. -/
def processLoop (env : BootstrapEnv) (s : HandlerState)
    (events : List MoonrakerStatusNotification) : HandlerState × Except HandlerError Unit :=
  (events.foldl (handleNotification env) s, .error .channelDisconnected)

/-- `run` (`main.rs:146-152`) at the supervision point: `join_next` hands
back the first finished task's result and `result??` re-raises its error,
so `run` (and with it `main`) returns that error. -/
def runSupervise (firstTaskResult : Except HandlerError Unit) : Except HandlerError Unit :=
  match firstTaskResult with
  | .error e => .error e
  | .ok _ => .ok ()

/-- The point-in-time snapshot the exporter iterates
(`current_status.clone().into_read_only()` in `UpdateHandler::export`). -/
def snapshot (s : HandlerState) : StatusCache := s.currentStatus

/-- The effect of the pair loop of `process_status_update` on the pairs it
actually reaches: merge each pair whose topic parses. -/
def mergeValid (cache : StatusCache) (pairs : List (String × Json)) : StatusCache :=
  pairs.foldl
    (fun c p =>
      match statusDataTryFrom p.1 with
      | some kind => statusMerge c kind p.2
      | none => c)
    cache

/-- A status-patch batch with two valid pairs around one unparsable topic
(`zzz_bogus` matches no kind), as three singleton objects so the pair
order is explicit. -/
def mixedBatch : Json := .arr
  [ .obj [("extruder", .obj [("a", .num 1)])]
  , .obj [("zzz_bogus", .obj [("x", .num 9)])]
  , .obj [("heater_bed", .obj [("b", .num 2)])] ]

/-- The discovery response of the end-to-end scenario:
`{"result": {"objects": ["extruder", "mcu bogus_unknown_subsystem", "heater_bed"]}}`. -/
def scenarioDiscovery : Json := .obj [("result", .obj [("objects",
  .arr [.str "extruder", .str "mcu bogus_unknown_subsystem", .str "heater_bed"])])]

/-- The subscribe response of the end-to-end scenario:
`{"result": {"status": {"extruder": {"temperature": 200.1},
"heater_bed": {"temperature": 60.0}}}}`. -/
def scenarioSubscribe : Json := .obj [("result", .obj [("status", .obj
  [ ("extruder", .obj [("temperature", .num (2001 / 10))])
  , ("heater_bed", .obj [("temperature", .num 60)]) ])])]

/-- The scenario's bootstrap environment. -/
def scenarioEnv : BootstrapEnv := ⟨some scenarioDiscovery, some scenarioSubscribe⟩

/-- The handler state after the scenario's connected event (bootstrap:
discover, filter, subscribe, seed). -/
def scenarioSeeded : HandlerState :=
  handleNotification scenarioEnv ⟨false, []⟩ .MoonrakerConnected

/-- The handler state after the scenario's later patch
`{"extruder": {"temperature": 205.3}}`. -/
def scenarioPatched : HandlerState :=
  handleNotification scenarioEnv scenarioSeeded
    (.KlipperStatusData (.arr [.obj [("extruder", .obj [("temperature", .num (2053 / 10))])]]))

/-! ## Lemmas about the keyed association-list operations -/

section KeyedListLemmas

variable {κ : Type} [DecidableEq κ]

theorem lookupKey_setKey_self (k : κ) (v : Json) (l : List (κ × Json)) :
    lookupKey k (setKey k v l) = some v := by
  induction l with
  | nil => simp [setKey, lookupKey]
  | cons p rest ih =>
    obtain ⟨k2, w⟩ := p
    by_cases h : k2 = k <;> simp [setKey, lookupKey, h, ih]

theorem lookupKey_setKey_ne {k m : κ} (h : k ≠ m) (v : Json) (l : List (κ × Json)) :
    lookupKey m (setKey k v l) = lookupKey m l := by
  induction l with
  | nil => simp [setKey, lookupKey, h]
  | cons p rest ih =>
    obtain ⟨k2, w⟩ := p
    by_cases h2 : k2 = k
    · subst h2; simp [setKey, lookupKey, h, ih]
    · simp [setKey, lookupKey, h2, ih]

theorem lookupKey_eraseKey_self (k : κ) (l : List (κ × Json)) :
    lookupKey k (eraseKey k l) = none := by
  induction l with
  | nil => simp [eraseKey, lookupKey]
  | cons p rest ih =>
    obtain ⟨k2, w⟩ := p
    by_cases h : k2 = k <;> simp [eraseKey, lookupKey, h, ih]

theorem lookupKey_eraseKey_ne {k m : κ} (h : k ≠ m) (l : List (κ × Json)) :
    lookupKey m (eraseKey k l) = lookupKey m l := by
  induction l with
  | nil => simp [eraseKey, lookupKey]
  | cons p rest ih =>
    obtain ⟨k2, w⟩ := p
    by_cases h2 : k2 = k
    · subst h2; simp [eraseKey, lookupKey, h, ih]
    · simp [eraseKey, lookupKey, h2, ih]

theorem setKey_eq_self {k : κ} {v : Json} {l : List (κ × Json)}
    (h : lookupKey k l = some v) : setKey k v l = l := by
  induction l with
  | nil => simp [lookupKey] at h
  | cons p rest ih =>
    obtain ⟨k2, w⟩ := p
    by_cases h2 : k2 = k
    · subst h2
      have hw : w = v := by simpa [lookupKey] using h
      subst hw
      simp [setKey]
    · simp only [lookupKey, if_neg h2] at h
      simp [setKey, h2, ih h]

theorem eraseKey_eq_self {k : κ} {l : List (κ × Json)}
    (h : lookupKey k l = none) : eraseKey k l = l := by
  induction l with
  | nil => simp [eraseKey]
  | cons p rest ih =>
    obtain ⟨k2, w⟩ := p
    by_cases h2 : k2 = k
    · subst h2; simp [lookupKey] at h
    · simp only [lookupKey, if_neg h2] at h
      simp [eraseKey, h2, ih h]

end KeyedListLemmas

theorem Json.isNull_iff {v : Json} : v.isNull = true ↔ v = .null := by
  cases v <;> simp [Json.isNull]

/-- The two ways `mergeFields` treats one patch field, as equations. -/
theorem mergeFields_cons_null {k : String} {v : Json} (hv : v.isNull = true)
    (acc rest : List (String × Json)) :
    mergeFields acc ((k, v) :: rest) = mergeFields (eraseKey k acc) rest := by
  simp [mergeFields, hv]

theorem mergeFields_cons_notNull {k : String} {v : Json} (hv : v.isNull = false)
    (acc rest : List (String × Json)) :
    mergeFields acc ((k, v) :: rest) =
      mergeFields (setKey k (mergePatch ((lookupKey k acc).getD .null) v) acc) rest := by
  simp [mergeFields, hv]

/-- Field-level characterization of the `json_patch::merge` field loop: for
a patch with pairwise-distinct keys, a field's final binding is decided by
its binding in the patch — `null` removes it, any other patch value merges
recursively into the old binding, and a field absent from the patch keeps
the document's binding. -/
theorem lookupKey_mergeFields (f : String) (pf : List (String × Json)) :
    ∀ acc, nodupKeys pf = true →
    lookupKey f (mergeFields acc pf) =
      match lookupKey f pf with
      | some v => if v.isNull then none else some (mergePatch ((lookupKey f acc).getD .null) v)
      | none => lookupKey f acc := by
  induction pf with
  | nil => intro acc _; rfl
  | cons p rest ih =>
    intro acc h
    obtain ⟨k, v⟩ := p
    have h2 : (lookupKey k rest).isNone = true ∧ nodupKeys rest = true := by
      simpa [nodupKeys] using h
    have hk : lookupKey k rest = none := by
      simpa [Option.isNone_iff_eq_none] using h2.1
    have hrest : nodupKeys rest = true := h2.2
    by_cases hf : k = f
    · subst hf
      by_cases hv : v.isNull
      · rw [mergeFields_cons_null hv, ih _ hrest, hk]
        simp [lookupKey, hv, lookupKey_eraseKey_self]
      · rw [mergeFields_cons_notNull (Bool.not_eq_true _ ▸ hv), ih _ hrest, hk]
        simp [lookupKey, hv, lookupKey_setKey_self]
    · have hpf : lookupKey f ((k, v) :: rest) = lookupKey f rest := by
        simp [lookupKey, hf]
      by_cases hv : v.isNull
      · rw [mergeFields_cons_null hv, ih _ hrest, hpf,
          lookupKey_eraseKey_ne hf]
      · rw [mergeFields_cons_notNull (Bool.not_eq_true _ ▸ hv), ih _ hrest, hpf,
          lookupKey_setKey_ne hf]

theorem nodupKeys_of_wfFields {pf : List (String × Json)} (h : wfFields pf = true) :
    nodupKeys pf = true := by
  induction pf with
  | nil => rfl
  | cons p rest ih =>
    obtain ⟨k, v⟩ := p
    have h2 : (lookupKey k rest).isNone = true ∧ wfJson v = true ∧ wfFields rest = true := by
      simpa [wfFields, and_assoc] using h
    simp [nodupKeys, h2.1, ih h2.2.2]

mutual
/-- RFC 7396 merge-patch is idempotent in the patch: re-applying a
well-formed patch to an already-patched document changes nothing. -/
theorem mergePatch_idem : ∀ (p : Json), wfJson p = true → ∀ d,
    mergePatch (mergePatch d p) p = mergePatch d p
  | .null, _, _ => rfl
  | .bool _, _, _ => rfl
  | .num _, _, _ => rfl
  | .str _, _, _ => rfl
  | .arr _, _, _ => rfl
  | .obj pf, h, d => by
    have hf : wfFields pf = true := h
    show Json.obj (mergeFields (mergeFields _ pf) pf) = Json.obj (mergeFields _ pf)
    exact congrArg Json.obj (mergeFields_idem pf hf _)

/-- The field loop of the merge is idempotent for a field list with
pairwise-distinct keys and well-formed values. -/
theorem mergeFields_idem : ∀ (pf : List (String × Json)), wfFields pf = true → ∀ acc,
    mergeFields (mergeFields acc pf) pf = mergeFields acc pf
  | [], _, _ => rfl
  | (k, v) :: rest, h, acc => by
    have h2 : (lookupKey k rest).isNone = true ∧ wfJson v = true ∧ wfFields rest = true := by
      simpa [wfFields, and_assoc] using h
    have hk : lookupKey k rest = none := by
      simpa [Option.isNone_iff_eq_none] using h2.1
    have hrest : wfFields rest = true := h2.2.2
    have hnd : nodupKeys rest = true := nodupKeys_of_wfFields hrest
    by_cases hv : v.isNull
    · rw [mergeFields_cons_null hv]
      have h1 : lookupKey k (mergeFields (eraseKey k acc) rest) = none := by
        rw [lookupKey_mergeFields k rest _ hnd, hk]
        exact lookupKey_eraseKey_self k acc
      rw [mergeFields_cons_null hv, eraseKey_eq_self h1]
      exact mergeFields_idem rest hrest _
    · have hv2 : v.isNull = false := Bool.not_eq_true _ ▸ hv
      rw [mergeFields_cons_notNull hv2]
      have h3 : lookupKey k (mergeFields
          (setKey k (mergePatch ((lookupKey k acc).getD .null) v) acc) rest)
          = some (mergePatch ((lookupKey k acc).getD .null) v) := by
        rw [lookupKey_mergeFields k rest _ hnd, hk]
        exact lookupKey_setKey_self k _ acc
      rw [mergeFields_cons_notNull hv2, h3]
      show mergeFields (setKey k
        (mergePatch (mergePatch ((lookupKey k acc).getD .null) v) v) _) rest = _
      rw [mergePatch_idem v h2.2.1 _, setKey_eq_self h3]
      exact mergeFields_idem rest hrest _
end

/-- A non-object patch replaces the document wholesale. -/
theorem mergePatch_not_obj (d : Json) {p : Json} (h : ∀ fs, p ≠ .obj fs) :
    mergePatch d p = p := by
  cases p <;> first | rfl | exact absurd rfl (h _)

/-- The pair loop merges every pair before the first unparsable topic,
then stops with `UnknownStatusUpdate` for that topic. -/
theorem processPairs_prefix (bad : String) (bv : Json)
    (hbad : statusDataTryFrom bad = none) :
    ∀ (good : List (String × Json)), (∀ p ∈ good, (statusDataTryFrom p.1).isSome = true) →
    ∀ (cache : StatusCache) (rest : List (String × Json)),
    processPairs cache (good ++ (bad, bv) :: rest) =
      (mergeValid cache good, some (.unknownStatusUpdate bad)) := by
  intro good
  induction good with
  | nil =>
    intro _ cache rest
    simp [processPairs, hbad, mergeValid]
  | cons p good ih =>
    intro hgood cache rest
    obtain ⟨k, v⟩ := p
    have hk : (statusDataTryFrom k).isSome = true := hgood (k, v) (by simp)
    obtain ⟨kind, hkind⟩ := Option.isSome_iff_exists.mp hk
    have hrest : ∀ q ∈ good, (statusDataTryFrom q.1).isSome = true := by
      intro q hq; exact hgood q (by simp [hq])
    simp only [List.cons_append, processPairs, hkind, List.append_eq]
    rw [ih hrest (statusMerge cache kind v) rest]
    simp [mergeValid, hkind]

/-! ## The claims -/

/-- C1 (code bug): the round-trip invariant `parse (render (parse T)) =
parse T` fails for the topic `"extruder extruder1"`. The topic parses to
`Extruder "extruder1"`, but the source's rendering branch
(`handler.rs:130`) is `format!("extruderÃ {name}")` — a stray U+00C3
between the kind and the separating space, where every sibling branch
writes `format!("<kind> {name}")` — so the rendered topic
`"extruderÃ extruder1"` matches no kind and fails to re-parse. -/
theorem extruder_render_breaks_roundtrip :
    statusDataTryFrom "extruder extruder1" = some (.Extruder "extruder1") ∧
    statusDataToString (.Extruder "extruder1") = "extruderÃ extruder1" ∧
    statusDataTryFrom (statusDataToString (.Extruder "extruder1")) = none :=
  ⟨rfl, rfl, rfl⟩

/-- C2 counterexample: processing the batch
`[{extruder: {a: 1}}, {zzz_bogus: {x: 9}}, {heater_bed: {b: 2}}]` merges
the extruder pair, then the `?` on the unparsable topic `zzz_bogus`
aborts the loop, so the valid `heater_bed` pair is never merged — refuting
"the unparsable topic never prevents the remaining pairs from being
merged". -/
theorem unparsable_topic_drops_later_pairs :
    (processStatusUpdate [] mixedBatch).2 = some (.unknownStatusUpdate "zzz_bogus") ∧
    lookupKey (.Extruder "extruder") (processStatusUpdate [] mixedBatch).1 =
      some (.obj [("a", .num 1)]) ∧
    ¬ lookupKey (.HeaterBed "heater_bed") (processStatusUpdate [] mixedBatch).1 =
      some (.obj [("b", .num 2)]) :=
  ⟨rfl, rfl, fun hc => nomatch hc⟩

/-- C2 (amended): in a status-patch batch, the pairs before the first
unparsable topic are merged into the cache; the unparsable topic aborts
the rest of the batch with `UnknownStatusUpdate` (the consumer loop logs
the error and continues with later notifications). -/
theorem batch_merges_prefix_before_bad_topic (cache : StatusCache)
    (good : List (String × Json)) (bad : String) (bv : Json)
    (rest : List (String × Json))
    (hgood : ∀ p ∈ good, (statusDataTryFrom p.1).isSome = true)
    (hbad : statusDataTryFrom bad = none) :
    processStatusUpdate cache (.arr [.obj (good ++ (bad, bv) :: rest)]) =
      (mergeValid cache good, some (.unknownStatusUpdate bad)) := by
  have h := processPairs_prefix bad bv hbad good hgood cache rest
  simp [processStatusUpdate, processUpdates, h]

/-- Witness for C2's amended theorem at the concrete mixed batch. -/
theorem batch_merges_prefix_witness :
    processStatusUpdate []
        (.arr [.obj ([("extruder", .obj [("a", .num 1)])] ++
          ("zzz_bogus", .obj [("x", .num 9)]) :: [("heater_bed", .obj [("b", .num 2)])])]) =
      (mergeValid [] [("extruder", .obj [("a", .num 1)])],
        some (.unknownStatusUpdate "zzz_bogus")) :=
  batch_merges_prefix_before_bad_topic [] _ "zzz_bogus" _ _ (by decide) rfl

/-- C3 counterexample: with call id 7 pending, `on_disconnect` (and
`on_close`) leave the pending entry in the correlator's request table —
refuting "the pending entry is discarded"; no value or failure is ever
delivered to its slot, so the caller's future stays unresolved. -/
theorem disconnect_keeps_pending_call :
    (onDisconnect ⟨[7], 8⟩).1.requests = [7] ∧
    ¬ (onDisconnect ⟨[7], 8⟩).1.requests = [] ∧
    (onClose ⟨[7], 8⟩).1.requests = [7] :=
  ⟨rfl, by decide, rfl⟩

/-- C3 (amended): on every disconnect transition (`on_close` and
`on_disconnect`) the client sends the `MoonrakerDisconnected` lifecycle
event and reconnects, but the correlator state — the pending-call table
included — is left untouched and no pending future is resolved or
failed. -/
theorem disconnect_preserves_pending_calls (s : ClientState) :
    onClose s = (s, [.MoonrakerDisconnected], .Reconnect) ∧
    onDisconnect s = (s, [.MoonrakerDisconnected], .Reconnect) :=
  ⟨rfl, rfl⟩

/-- C4: after any connected event, any number of status merges and a
disconnected event, the snapshot is empty and `initialized` is false. -/
theorem disconnect_clears_snapshot (env : BootstrapEnv) (s : HandlerState)
    (ms : List Json) :
    snapshot (processLoop env s
        (.MoonrakerConnected :: ms.map .KlipperStatusData ++ [.MoonrakerDisconnected])).1 = [] ∧
    (processLoop env s
        (.MoonrakerConnected :: ms.map .KlipperStatusData ++ [.MoonrakerDisconnected])).1.initialized
      = false := by
  constructor <;>
    simp [processLoop, snapshot, List.foldl_append, handleNotification,
      onMoonrakerDisconnected]

/-- C5: `merge(key, patch)` inserts an empty object for an absent key and
applies merge-patch semantics to the stored value: a patch field `null`
removes the target field; any other patch value replaces it (recursively
when the patch value is an object, wholesale — arrays included —
otherwise); fields absent from the patch are untouched. -/
theorem statusMerge_merge_patch_semantics (cache : StatusCache) (kind : StatusData)
    (df pf : List (String × Json)) (f : String)
    (hnd : nodupKeys pf = true) :
    (lookupKey kind cache = none →
      lookupKey kind (statusMerge cache kind (.obj pf)) =
        some (mergePatch (.obj []) (.obj pf))) ∧
    (lookupKey kind cache = some (.obj df) →
      lookupKey kind (statusMerge cache kind (.obj pf)) =
        some (.obj (mergeFields df pf))) ∧
    (lookupKey f pf = some .null → lookupKey f (mergeFields df pf) = none) ∧
    (∀ pv, lookupKey f pf = some pv → pv.isNull = false → (∀ ifs, pv ≠ .obj ifs) →
      lookupKey f (mergeFields df pf) = some pv) ∧
    (∀ ifs, lookupKey f pf = some (.obj ifs) →
      lookupKey f (mergeFields df pf) =
        some (mergePatch ((lookupKey f df).getD .null) (.obj ifs))) ∧
    (lookupKey f pf = none → lookupKey f (mergeFields df pf) = lookupKey f df) := by
  have hchar := lookupKey_mergeFields f pf df hnd
  refine ⟨?_, ?_, ?_, ?_, ?_, ?_⟩
  · intro h
    simp [statusMerge, h, lookupKey_setKey_self]
  · intro h
    simp [statusMerge, h, lookupKey_setKey_self, mergePatch]
  · intro h
    rw [hchar, h]
    rfl
  · intro pv h hn hno
    rw [hchar, h]
    simp [hn, mergePatch_not_obj _ hno]
  · intro ifs h
    rw [hchar, h]
    rfl
  · intro h
    rw [hchar, h]

/-- Witness for C5 at a concrete cache value `{gone: 1, kept: 2}` and
patch `{gone: null, fresh: 3}`. -/
theorem statusMerge_merge_patch_semantics_witness :
    nodupKeys [("gone", Json.null), ("fresh", Json.num 3)] = true ∧
    lookupKey "gone"
      (mergeFields [("gone", .num 1), ("kept", .num 2)]
        [("gone", Json.null), ("fresh", Json.num 3)]) = none ∧
    lookupKey "kept"
      (mergeFields [("gone", .num 1), ("kept", .num 2)]
        [("gone", Json.null), ("fresh", Json.num 3)]) =
      lookupKey "kept" [("gone", .num 1), ("kept", .num 2)] :=
  ⟨by decide,
    (statusMerge_merge_patch_semantics [] .Toolhead
      [("gone", .num 1), ("kept", .num 2)]
      [("gone", Json.null), ("fresh", Json.num 3)] "gone" (by decide)).2.2.1 rfl,
    (statusMerge_merge_patch_semantics [] .Toolhead
      [("gone", .num 1), ("kept", .num 2)]
      [("gone", Json.null), ("fresh", Json.num 3)] "kept" (by decide)).2.2.2.2.2 rfl⟩

/-- C6: one cache merge is idempotent — re-applying the same (well-formed)
patch to the same key leaves the key's cached value unchanged. -/
theorem statusMerge_idempotent (cache : StatusCache) (kind : StatusData)
    (patch : Json) (h : wfJson patch = true) :
    lookupKey kind (statusMerge (statusMerge cache kind patch) kind patch) =
      lookupKey kind (statusMerge cache kind patch) := by
  simp only [statusMerge, lookupKey_setKey_self, Option.getD_some]
  rw [mergePatch_idem patch h]

/-- Witness for C6 at the concrete patch `{temperature: 205.3}`. -/
theorem statusMerge_idempotent_witness :
    wfJson (.obj [("temperature", Json.num (2053 / 10))]) = true ∧
    lookupKey (.Extruder "extruder")
        (statusMerge (statusMerge [] (.Extruder "extruder")
            (.obj [("temperature", Json.num (2053 / 10))]))
          (.Extruder "extruder") (.obj [("temperature", Json.num (2053 / 10))])) =
      lookupKey (.Extruder "extruder")
        (statusMerge [] (.Extruder "extruder")
          (.obj [("temperature", Json.num (2053 / 10))])) :=
  ⟨by decide,
    statusMerge_idempotent [] (.Extruder "extruder")
      (.obj [("temperature", Json.num (2053 / 10))]) (by decide)⟩

/-- C7: `on_text` never fails the inbound loop; a frame carrying a
`method` field takes the notification path (the correlator is untouched
and no response slot is filled); a frame without one takes the response
path: a pending id gets its entry removed and the frame delivered, while
a frame whose id is missing, non-integer or not pending changes nothing
and raises no error. -/
theorem onText_routes_frames (s : ClientState) (frame : Json) :
    (onText s frame).err = none ∧
    ((jsonGet "method" frame).isSome = true →
      (onText s frame).state = s ∧ (onText s frame).resolved = []) ∧
    ((jsonGet "method" frame).isSome = false →
      (onText s frame).sentUpdates = [] ∧
      (∀ cid, (jsonGet "id" frame).bind jsonAsU64 = some cid → cid ∈ s.requests →
        (onText s frame).state = { s with requests := s.requests.erase cid } ∧
        (onText s frame).resolved = [(cid, frame)]) ∧
      ((∀ cid, (jsonGet "id" frame).bind jsonAsU64 = some cid → cid ∉ s.requests) →
        onText s frame = ⟨s, [], [], none⟩)) := by
  cases hmj : jsonGet "method" frame with
  | some m =>
    refine ⟨?_, fun _ => ⟨?_, ?_⟩, fun hc => by simp [hmj] at hc⟩ <;>
      simp [onText, hmj]
  | none =>
    refine ⟨?_, fun hc => by simp [hmj] at hc, fun _ => ⟨?_, ?_, ?_⟩⟩
    · cases hid : (jsonGet "id" frame).bind jsonAsU64 with
      | none => simp [onText, hmj, processCallResponse, hid]
      | some cid =>
        by_cases hmem : cid ∈ s.requests <;>
          simp [onText, hmj, processCallResponse, hid, hmem]
    · cases hid : (jsonGet "id" frame).bind jsonAsU64 with
      | none => simp [onText, hmj, processCallResponse, hid]
      | some cid =>
        by_cases hmem : cid ∈ s.requests <;>
          simp [onText, hmj, processCallResponse, hid, hmem]
    · intro cid hid hmem
      simp [onText, hmj, processCallResponse, hid, hmem]
    · intro hnone
      cases hid : (jsonGet "id" frame).bind jsonAsU64 with
      | none => simp [onText, hmj, processCallResponse, hid]
      | some cid =>
        have := hnone cid hid
        simp [onText, hmj, processCallResponse, hid, this]

/-- Witness for C7: a response frame with the unknown id 9 against a state
with only id 5 pending is dropped without error and without any state
change. -/
theorem onText_routes_frames_witness :
    onText ⟨[5], 6⟩ (.obj [("id", .num 9)]) = ⟨⟨[5], 6⟩, [], [], none⟩ :=
  ((onText_routes_frames ⟨[5], 6⟩ (.obj [("id", .num 9)])).2.2 (by decide)).2.2
    (fun cid h => by
      obtain rfl : (9 : ℕ) = cid := Option.some.inj h
      decide)

/-- C8 counterexample: the discovery topic `"mcu bogus_unknown_subsystem"`
is not dropped — `mcu <name>` is a recognized topic for every name, so it
parses to `Mcu "bogus_unknown_subsystem"` and stays in the filtered list,
which therefore is not the claimed `{extruder, heater_bed}`. -/
theorem scenario_filter_keeps_mcu :
    (.Mcu "bogus_unknown_subsystem") ∈ getObjectListFilter scenarioDiscovery ∧
    getObjectListFilter scenarioDiscovery ≠
      [.Extruder "extruder", .HeaterBed "heater_bed"] := by
  constructor <;> decide

/-- C8 (amended): in the end-to-end scenario the discovery response
filters to `[extruder, mcu bogus_unknown_subsystem, heater_bed]` (the
`mcu`-prefixed topic parses as an mcu instance and is kept); the subscribe
response seeds the cache with the two initial snapshots and marks the
handler initialized; the later patch `{extruder: {temperature: 205.3}}`
updates only that field, so the snapshot shows extruder.temperature ==
205.3 and heater_bed.temperature == 60.0. -/
theorem scenario_end_to_end :
    getObjectListFilter scenarioDiscovery =
      [.Extruder "extruder", .Mcu "bogus_unknown_subsystem", .HeaterBed "heater_bed"] ∧
    scenarioSeeded.initialized = true ∧
    lookupKey (.Extruder "extruder") (snapshot scenarioSeeded) =
      some (.obj [("temperature", .num (2001 / 10))]) ∧
    lookupKey (.Extruder "extruder") (snapshot scenarioPatched) =
      some (.obj [("temperature", .num (2053 / 10))]) ∧
    lookupKey (.HeaterBed "heater_bed") (snapshot scenarioPatched) =
      some (.obj [("temperature", .num 60)]) :=
  ⟨rfl, rfl, rfl, rfl, rfl⟩

/-- C9: whatever notifications were delivered first, when the event
channel closes the consumer loop returns `ChannelDisconnected`, and `run`
re-raises that error from the first finished task, so the process
terminates rather than continue without state updates. -/
theorem channel_close_terminates_process (env : BootstrapEnv) (s : HandlerState)
    (events : List MoonrakerStatusNotification) :
    (processLoop env s events).2 = .error .channelDisconnected ∧
    runSupervise (processLoop env s events).2 = .error .channelDisconnected :=
  ⟨rfl, rfl⟩

/-- C10: a `notify_proc_stat_update` notification replaces the cached
`MoonrakerStatus` entry wholesale (`DashMap::insert`): the new cached
value is exactly the payload, so a field of the previous value absent from
the payload does not survive — while the merge-patch used for subsystem
patches would have kept it. -/
theorem proc_stat_update_replaces_wholesale (env : BootstrapEnv) (b : Bool)
    (cache : StatusCache) (df pf : List (String × Json)) (f : String)
    (_hold : lookupKey .MoonrakerStatus cache = some (.obj df))
    (_hf : (lookupKey f df).isSome = true)
    (habs : lookupKey f pf = none)
    (hnd : nodupKeys pf = true) :
    lookupKey .MoonrakerStatus
        (handleNotification env ⟨b, cache⟩ (.MoonrakerStatusData (.obj pf))).currentStatus
      = some (.obj pf) ∧
    lookupKey f (mergeFields df pf) = lookupKey f df := by
  constructor
  · simp [handleNotification, lookupKey_setKey_self]
  · rw [lookupKey_mergeFields f pf df hnd, habs]

/-- Witness for C10: the previous process-stats value
`{websocket_connections: 2, cpu_temp: 40}` is replaced by the payload
`{cpu_temp: 41}`, dropping `websocket_connections`; merge-patch would have
kept it. -/
theorem proc_stat_update_replaces_wholesale_witness :
    lookupKey .MoonrakerStatus
        (handleNotification ⟨none, none⟩
          ⟨true, [(.MoonrakerStatus,
            .obj [("websocket_connections", .num 2), ("cpu_temp", .num 40)])]⟩
          (.MoonrakerStatusData (.obj [("cpu_temp", .num 41)]))).currentStatus
      = some (.obj [("cpu_temp", .num 41)]) ∧
    lookupKey "websocket_connections"
        (mergeFields [("websocket_connections", .num 2), ("cpu_temp", .num 40)]
          [("cpu_temp", .num 41)]) =
      lookupKey "websocket_connections"
        [("websocket_connections", .num 2), ("cpu_temp", .num 40)] :=
  proc_stat_update_replaces_wholesale ⟨none, none⟩ true
    [(.MoonrakerStatus, .obj [("websocket_connections", .num 2), ("cpu_temp", .num 40)])]
    [("websocket_connections", .num 2), ("cpu_temp", .num 40)]
    [("cpu_temp", .num 41)] "websocket_connections" rfl rfl rfl (by decide)

end Mamalluca
